import Mathlib

/-!
Verification of the Masonry context layer (`masonry/src/contexts.rs`).

The definitions below are a shallow embedding of the context methods of
`contexts.rs`.  Rust's `&mut self` methods become pure state transformers;
a `debug_panic!` / failed `debug_assert!` / `.expect(..)` becomes a `Res.panic`
result (we model the debug build, where a contract violation aborts the pass).
Types that live outside the verified source (`WidgetState`, the tree arena,
`RenderRootState`) are modelled from the specification; each such definition
carries a doc comment starting with "Modelled from the spec".
-/

namespace Masonry

/-- A widget identity (`WidgetId`): an opaque process-unique handle, only
equality is needed. -/
structure WidgetId where
  val : Nat
deriving DecidableEq, Repr

/-- Model of an `f64` as used by the geometry code: either a finite value
(represented exactly as a rational; the source only stores, compares and adds
coordinates, never rounds) or one of the non-finite classes `nan` / `inf` that
the `is_nan` / `is_infinite` checks of `place_child` and
`set_child_translation` reject.  The sign of an infinity is not tracked: the
source never computes with a non-finite coordinate, it only detects one. -/
inductive Fl where
  | fin : ℚ → Fl
  | nan : Fl
  | inf : Fl
deriving DecidableEq, Repr

/-- Whether this `f64` model value is finite (neither NaN nor infinite). -/
def Fl.isFinite : Fl → Bool
  | .fin _ => true
  | .nan => false
  | .inf => false

/-- A stored point or vector (`kurbo::Point` / `kurbo::Vec2`).  Stored
geometry is always finite in a debug build — every write goes through the
finiteness assertion — so stored coordinates are plain rationals. -/
structure Pt where
  x : ℚ
  y : ℚ
deriving DecidableEq, Repr

/-- A point or vector parameter as passed in by widget code, before the
finiteness assertion has run: each coordinate is a full `f64` model value. -/
structure FPoint where
  x : Fl
  y : Fl
deriving DecidableEq, Repr

/-- An axis-aligned rectangle (`kurbo::Rect`). -/
structure Rect where
  x0 : ℚ
  y0 : ℚ
  x1 : ℚ
  y1 : ℚ
deriving DecidableEq, Repr

/-- Embeds `kurbo::Rect::union`: the smallest rectangle containing both. -/
def Rect.union (a b : Rect) : Rect :=
  ⟨min a.x0 b.x0, min a.y0 b.y0, max a.x1 b.x1, max a.y1 b.y1⟩

/-- The kinds of programmer-error aborts surfaced by the context methods
(`.expect` on an arena lookup, `debug_assert!`, `debug_panic!`). -/
inductive PanicKind where
  | childNotFound
  | layoutNotDone
  | invalidOrigin
  | invalidTranslation
  | captureNotAllowed
deriving DecidableEq, Repr

/-- Result of a context method in a debug build: either the updated state or
a programmer-error abort. -/
inductive Res (α : Type) where
  | ok : α → Res α
  | panic : PanicKind → Res α
deriving DecidableEq, Repr

/-- Modelled from the spec: the per-node `WidgetState` record (its own module
is not part of the verified sources; the fields below are exactly the ones the
context methods in `contexts.rs` read and write, per spec §3 "NodeState"). -/
structure WidgetState where
  id : WidgetId
  origin : Pt
  translation : Pt
  local_paint_rect : Rect
  baseline_offset : ℚ
  needs_paint : Bool
  request_paint : Bool
  needs_accessibility : Bool
  request_accessibility : Bool
  needs_layout : Bool
  request_layout : Bool
  needs_compose : Bool
  request_compose : Bool
  needs_anim : Bool
  request_anim : Bool
  needs_update_disabled : Bool
  needs_update_stashed : Bool
  children_changed : Bool
  update_focus_chain : Bool
  translation_changed : Bool
  is_expecting_place_child_call : Bool
  is_explicitly_disabled : Bool
  is_explicitly_stashed : Bool
  is_hovered : Bool
  has_focus : Bool
deriving DecidableEq, Repr

/-- An opaque render-backend scene resource (spec §6: "keyed store from
NodeIdentity to an opaque scene/resource object"). -/
abbrev Scene := Unit

/-- An opaque widget payload.  Every operation embedded here treats the
payload arena purely as a keyed store, so the payload content is irrelevant. -/
abbrev Widget := Unit

/-- Modelled from the spec: the fields of `RenderRootState` that the context
methods of `contexts.rs` touch (spec §3 "GlobalEngineState"). -/
structure GlobalState where
  focused_widget : Option WidgetId
  next_focused_widget : Option WidgetId
  pointer_capture_target : Option WidgetId
  scenes : List (WidgetId × Scene)
  scroll_request_targets : List (WidgetId × Rect)
  needs_pointer_pass : Bool
deriving DecidableEq, Repr

/-! ### Arena scope operations

Modelled from the spec (§4.1 "Tree Arena"): the children of the current
scope form a keyed store; a lookup of an identity that is not a child of the
scope is a NotFound condition.  We model the scope's direct-children map as an
association list. -/

/-- Modelled from the spec: arena child lookup (`get_child` /
`get_child_mut` resolution by identity). -/
def arenaGet {α : Type} (a : List (WidgetId × α)) (i : WidgetId) : Option α :=
  match a with
  | [] => none
  | e :: rest => if e.1 = i then some e.2 else arenaGet rest i

/-- Modelled from the spec: writing back a child entry through a mutable
arena reference. -/
def arenaSet {α : Type} (a : List (WidgetId × α)) (i : WidgetId) (v : α) :
    List (WidgetId × α) :=
  match a with
  | [] => []
  | e :: rest =>
    if e.1 = i then (e.1, v) :: arenaSet rest i v else e :: arenaSet rest i v

/-- Modelled from the spec: erasing a child entry (and with it the child's
subtree scope) from the arena. -/
def arenaErase {α : Type} (a : List (WidgetId × α)) (i : WidgetId) :
    List (WidgetId × α) :=
  match a with
  | [] => []
  | e :: rest =>
    if e.1 = i then arenaErase rest i else e :: arenaErase rest i

/-- Modelled from the spec: `TreeArena::remove_child` — detach a child by
identity, failing with an ownership error if absent (§4.1 "Removal"). -/
def arenaRemove {α : Type} (a : List (WidgetId × α)) (i : WidgetId) :
    Option (List (WidgetId × α)) :=
  match arenaGet a i with
  | some _ => some (arenaErase a i)
  | none => none

/-! ### Request-flag setters (`contexts.rs` lines 455-517)

Each of these methods only writes fields of `self.widget_state`, so they are
embedded as `WidgetState` transformers; the context-level method is the
transformer applied to the context's `widget_state` field. -/

/-- Embeds `request_render` (contexts.rs 457-463): requests a paint and an
accessibility pass. -/
def request_render (s : WidgetState) : WidgetState :=
  { s with
    request_paint := true
    needs_paint := true
    needs_accessibility := true
    request_accessibility := true }

/-- Embeds `request_paint_only` (contexts.rs 469-473). -/
def request_paint_only (s : WidgetState) : WidgetState :=
  { s with
    request_paint := true
    needs_paint := true }

/-- Embeds `request_accessibility_update` (contexts.rs 479-483). -/
def request_accessibility_update (s : WidgetState) : WidgetState :=
  { s with
    needs_accessibility := true
    request_accessibility := true }

/-- Embeds `request_layout` (contexts.rs 495-499). -/
def request_layout (s : WidgetState) : WidgetState :=
  { s with
    request_layout := true
    needs_layout := true }

/-- Embeds `request_compose` (contexts.rs 506-510). -/
def request_compose (s : WidgetState) : WidgetState :=
  { s with
    needs_compose := true
    request_compose := true }

/-- Embeds `request_anim_frame` (contexts.rs 513-517). -/
def request_anim_frame (s : WidgetState) : WidgetState :=
  { s with
    request_anim := true
    needs_anim := true }

/-- Embeds `children_changed` (contexts.rs 522-527): sets `children_changed` and
`update_focus_chain`, then calls `request_layout`. -/
def children_changed (s : WidgetState) : WidgetState :=
  request_layout
    { s with
      children_changed := true
      update_focus_chain := true }

/-- Embeds `set_disabled` (contexts.rs 555-558). -/
def set_disabled (s : WidgetState) (disabled : Bool) : WidgetState :=
  { s with
    needs_update_disabled := true
    is_explicitly_disabled := disabled }

/-! ### Flag merge-up -/

/-- Modelled from the spec: `WidgetState::merge_up` (the `WidgetState` module
is not part of the verified sources).  Spec §9: "on exit from any mutable
child-scope, merge the child's flags into the parent's via a monotonic OR";
§3 lists one `{needs_X, request_X}` pair per pass family plus
`children_changed` and the focus-chain recheck flag. -/
def merge_up (p c : WidgetState) : WidgetState :=
  { p with
    needs_paint := p.needs_paint || c.needs_paint
    request_paint := p.request_paint || c.request_paint
    needs_accessibility := p.needs_accessibility || c.needs_accessibility
    request_accessibility := p.request_accessibility || c.request_accessibility
    needs_layout := p.needs_layout || c.needs_layout
    request_layout := p.request_layout || c.request_layout
    needs_compose := p.needs_compose || c.needs_compose
    request_compose := p.request_compose || c.request_compose
    needs_anim := p.needs_anim || c.needs_anim
    request_anim := p.request_anim || c.request_anim
    needs_update_disabled := p.needs_update_disabled || c.needs_update_disabled
    needs_update_stashed := p.needs_update_stashed || c.needs_update_stashed
    children_changed := p.children_changed || c.children_changed
    update_focus_chain := p.update_focus_chain || c.update_focus_chain }

/-- Embeds `RawWrapperMut::drop` (contexts.rs 1215-1220): when a mutable raw-access
scope over a child ends, the nested context's accumulated `WidgetState` flags
are merged up into the parent's `WidgetState`.  The drop of a `WidgetMut`
born from `MutateCtx::get_mut` (contexts.rs 384-409, which stores
`parent_widget_state`) performs the same merge; `MutateCtx::reborrow_mut`
(contexts.rs 411-423) deliberately passes no parent so the merge runs exactly
once per scope. -/
def rawWrapperMutDrop (parent_widget_state child_state : WidgetState) :
    WidgetState :=
  merge_up parent_widget_state child_state

/-- The `needs_X` dirty flags, one per pass family (spec §3). -/
def needsFlags : List (WidgetState → Bool) :=
  [fun s => s.needs_paint,
   fun s => s.needs_accessibility,
   fun s => s.needs_layout,
   fun s => s.needs_compose,
   fun s => s.needs_anim,
   fun s => s.needs_update_disabled,
   fun s => s.needs_update_stashed]

/-! ### Derived geometry -/

/-- Modelled from the spec: a widget's paint rect in its parent's coordinate
space — its local paint rect offset by its layout origin (spec §3 "geometry";
`WidgetState::paint_rect` itself is outside the verified sources).  Only ever
evaluated on states whose stored origin passed the finiteness assertion. -/
def paintRect (s : WidgetState) : Rect :=
  ⟨s.local_paint_rect.x0 + s.origin.x,
   s.local_paint_rect.y0 + s.origin.y,
   s.local_paint_rect.x1 + s.origin.x,
   s.local_paint_rect.y1 + s.origin.y⟩

/-- Modelled from the spec: a widget's effective position relative to its
parent's window origin — the origin assigned by `place_child` plus the
compose translation (§4.2: `set_child_translation` "applies an additional
offset on top of the placed origin"). -/
def windowOffset (s : WidgetState) : Pt :=
  ⟨s.origin.x + s.translation.x, s.origin.y + s.translation.y⟩

/-! ### Context records

Each context struct keeps the fields of its Rust counterpart that the
embedded methods touch.  The children arenas hold only the current scope's
direct children; `widget_state_children` is the state arena,
`widget_children` the payload arena. -/

/-- Embeds `MutateCtx` (contexts.rs 47-53), restricted to the fields its embedded
methods use.  `parent_widget_state` is not part of the record: the merge it
triggers on drop is `rawWrapperMutDrop`. -/
structure MutateCtx where
  global_state : GlobalState
  widget_state : WidgetState
  widget_state_children : List (WidgetId × WidgetState)
  widget_children : List (WidgetId × Widget)
deriving DecidableEq, Repr

/-- Embeds `EventCtx` (contexts.rs 68-76), restricted to the fields its embedded
methods use (the children arenas are untouched by the focus and capture
methods). -/
structure EventCtx where
  global_state : GlobalState
  widget_state : WidgetState
  target : WidgetId
  allow_pointer_capture : Bool
  is_handled : Bool
deriving DecidableEq, Repr

/-- Embeds `LayoutCtx` (contexts.rs 101-106), restricted to the fields its embedded
methods use (the payload arena only feeds diagnostic messages). -/
structure LayoutCtx where
  global_state : GlobalState
  widget_state : WidgetState
  widget_state_children : List (WidgetId × WidgetState)
deriving DecidableEq, Repr

/-- Embeds `ComposeCtx` (contexts.rs 108-113), restricted to the fields its embedded
methods use. -/
structure ComposeCtx where
  global_state : GlobalState
  widget_state : WidgetState
  widget_state_children : List (WidgetId × WidgetState)
deriving DecidableEq, Repr

/-! ### MutateCtx methods -/

/-- Embeds `remove_child` (contexts.rs 533-547): detach the child from the state
arena and the payload arena (each `.expect` aborts on not-found), release the
render-backend scene keyed to the child's identity, then run
`children_changed` on the parent's own state. -/
def remove_child (ctx : MutateCtx) (child : WidgetId) : Res MutateCtx :=
  match arenaRemove ctx.widget_state_children child with
  | none => .panic .childNotFound
  | some sa =>
    match arenaRemove ctx.widget_children child with
    | none => .panic .childNotFound
    | some wa =>
      .ok
        { global_state :=
            { ctx.global_state with
              scenes := arenaErase ctx.global_state.scenes child }
          widget_state := children_changed ctx.widget_state
          widget_state_children := sa
          widget_children := wa }

/-- Embeds `set_stashed` (contexts.rs 624-633, defined on every mutable context;
embedded on `MutateCtx`): only when the child's explicit stash flag actually
changes does it set `needs_update_stashed` and store the new flag. -/
def set_stashed (ctx : MutateCtx) (child : WidgetId) (stashed : Bool) :
    Res MutateCtx :=
  match arenaGet ctx.widget_state_children child with
  | none => .panic .childNotFound
  | some cs =>
    if cs.is_explicitly_stashed ≠ stashed then
      .ok
        { ctx with
          widget_state_children :=
            arenaSet ctx.widget_state_children child
              { cs with
                needs_update_stashed := true
                is_explicitly_stashed := stashed } }
    else
      .ok ctx

/-! ### EventCtx methods -/

/-- Embeds `is_focused` (contexts.rs 316-318): whether this specific widget is the
committed focus target. -/
def is_focused (ctx : EventCtx) : Bool :=
  decide (ctx.global_state.focused_widget = some ctx.widget_state.id)

/-- Embeds `capture_pointer` (contexts.rs 671-679): `debug_assert!` that the event
being handled allows pointer capture, then make this widget the single
pointer-capture target.  Nothing else changes: the previous capturer is
silently superseded. -/
def capture_pointer (ctx : EventCtx) : Res EventCtx :=
  if ctx.allow_pointer_capture then
    .ok
      { ctx with
        global_state :=
          { ctx.global_state with
            pointer_capture_target := some ctx.widget_state.id } }
  else
    .panic .captureNotAllowed

/-- Embeds `release_pointer` (contexts.rs 684-686). -/
def release_pointer (ctx : EventCtx) : EventCtx :=
  { ctx with
    global_state := { ctx.global_state with pointer_capture_target := none } }

/-- Embeds `request_focus` (contexts.rs 731-739): stage this widget as the next
focus target, overriding any earlier request in the same cycle. -/
def request_focus (ctx : EventCtx) : EventCtx :=
  { ctx with
    global_state :=
      { ctx.global_state with
        next_focused_widget := some ctx.widget_state.id } }

/-- Embeds `set_focus` (contexts.rs 744-747): stage the given widget as the next
focus target. -/
def set_focus (ctx : EventCtx) (target : WidgetId) : EventCtx :=
  { ctx with
    global_state :=
      { ctx.global_state with next_focused_widget := some target } }

/-- Embeds `resign_focus` (contexts.rs 754-765): if `self.has_focus()` — the cached
subtree-focus flag, true when this widget or one of its descendants is the
focused widget — clear the staged focus target; otherwise log a warning and
change nothing.  The returned boolean records whether the warning was
logged. -/
def resign_focus (ctx : EventCtx) : EventCtx × Bool :=
  if ctx.widget_state.has_focus then
    ({ ctx with
       global_state :=
         { ctx.global_state with next_focused_widget := none } },
     false)
  else
    (ctx, true)

/-- Modelled from the spec: the end-of-event-cycle focus commit (spec §3:
`next_focused_widget` is "staged, applied at end of event cycle").  The
commit itself happens in a pass driver outside the verified sources. -/
def commitFocusCycle (g : GlobalState) : GlobalState :=
  { g with focused_widget := g.next_focused_widget }

/-! ### LayoutCtx methods -/

/-- The child-state update performed by a successful `place_child`
(contexts.rs 1013-1018): when the origin moved, store it and record
`translation_changed`; in every case clear `is_expecting_place_child_call`. -/
def placedState (cs : WidgetState) (o : Pt) : WidgetState :=
  { (if o ≠ cs.origin then
       { cs with origin := o, translation_changed := true }
     else cs) with
    is_expecting_place_child_call := false }

/-- Embeds `place_child` (contexts.rs 998-1024).  In source order:
`assert_layout_done` (contexts.rs 793-804: `debug_panic!` when the child's
`needs_layout` is still set, i.e. `run_layout` has not been called), the
finiteness assertion on `origin`, the child-state update `placedState`, and
the union of the (updated) child's paint rect into the parent's local paint
rect. -/
def place_child (ctx : LayoutCtx) (child : WidgetId) (origin : FPoint) :
    Res LayoutCtx :=
  match arenaGet ctx.widget_state_children child with
  | none => .panic .childNotFound
  | some cs =>
    if cs.needs_layout then .panic .layoutNotDone
    else
      match origin.x, origin.y with
      | Fl.fin ox, Fl.fin oy =>
        .ok
          { ctx with
            widget_state :=
              { ctx.widget_state with
                local_paint_rect :=
                  ctx.widget_state.local_paint_rect.union
                    (paintRect (placedState cs ⟨ox, oy⟩)) }
            widget_state_children :=
              arenaSet ctx.widget_state_children child
                (placedState cs ⟨ox, oy⟩) }
      | _, _ => .panic .invalidOrigin

/-! ### ComposeCtx methods -/

/-- Embeds `set_child_translation` (contexts.rs 1035-1058).  In source order: the
finiteness assertion on `translation`, then the child-state lookup, then —
only when the translation actually changes — the store and the
`translation_changed` mark. -/
def set_child_translation (ctx : ComposeCtx) (child : WidgetId)
    (translation : FPoint) : Res ComposeCtx :=
  match translation.x, translation.y with
  | Fl.fin tx, Fl.fin ty =>
    match arenaGet ctx.widget_state_children child with
    | none => .panic .childNotFound
    | some cs =>
      let t : Pt := ⟨tx, ty⟩
      if t ≠ cs.translation then
        .ok
          { ctx with
            widget_state_children :=
              arenaSet ctx.widget_state_children child
                { cs with translation := t, translation_changed := true } }
      else
        .ok ctx
  | _, _ => .panic .invalidTranslation

/-! ### Widget-state trees and the merge-on-scope-exit discipline (for the
dirty-flag up-propagation invariant)

A pass hands out one nested mutable scope per tree node; when the scope over
a child ends — `RawWrapperMut::drop`, or the drop of the `WidgetMut` produced
by `MutateCtx::get_mut` — the child's accumulated flags are merged into the
parent via `rawWrapperMutDrop`.  `closeTree` applies this discipline to a
whole tree of `WidgetState`s carrying the arbitrary flags widget code set
during the pass: it closes every child scope bottom-up. -/

mutual

/-- A tree of per-node `WidgetState`s. -/
inductive WTree where
  | node : WidgetState → WForest → WTree
deriving Repr

/-- A list of sibling subtrees. -/
inductive WForest where
  | nil : WForest
  | cons : WTree → WForest → WForest
deriving Repr

end

/-- The state stored at a tree's root. -/
def rootState : WTree → WidgetState
  | .node s _ => s

/-- Fold the scope-exit merge of each child's (already closed) root state
into the parent state, in sibling order. -/
def mergeRoots : WForest → WidgetState → WidgetState
  | .nil, s => s
  | .cons t rest, s => mergeRoots rest (rawWrapperMutDrop s (rootState t))

mutual

/-- Close every mutable child scope in the tree, bottom-up: each node's
final state is its own state with every closed child's flags merged up. -/
def closeTree : WTree → WTree
  | .node s cs =>
    .node (mergeRoots (closeForest cs) s) (closeForest cs)

/-- Maps `closeTree` over a forest of sibling subtrees. -/
def closeForest : WForest → WForest
  | .nil => .nil
  | .cons t rest => .cons (closeTree t) (closeForest rest)

end

mutual

/-- Whether any node of the tree (root included) satisfies the flag. -/
def anyTreeFlag (f : WidgetState → Bool) : WTree → Bool
  | .node s cs => f s || anyForestFlag f cs

/-- Whether any node of any tree in the forest satisfies the flag. -/
def anyForestFlag (f : WidgetState → Bool) : WForest → Bool
  | .nil => false
  | .cons t rest => anyTreeFlag f t || anyForestFlag f rest

end

/-- Whether any top-level root of the forest satisfies the flag. -/
def rootsFlag (f : WidgetState → Bool) : WForest → Bool
  | .nil => false
  | .cons t rest => f (rootState t) || rootsFlag f rest

mutual

/-- The dirty-flag invariant at every node: whenever some node in a node's
children forest (i.e. a strict descendant) satisfies the flag, the node
itself does. -/
def invTree (f : WidgetState → Bool) : WTree → Bool
  | .node s cs => (!anyForestFlag f cs || f s) && invForest f cs

/-- Checks `invTree` at every node of every tree in the forest. -/
def invForest (f : WidgetState → Bool) : WForest → Bool
  | .nil => true
  | .cons t rest => invTree f t && invForest f rest

end

/-! ### Concrete fixtures used by the witness and counterexample theorems -/

/-- A fresh test `WidgetState` with the given id and all flags cleared. -/
def baseState (n : Nat) : WidgetState where
  id := ⟨n⟩
  origin := ⟨0, 0⟩
  translation := ⟨0, 0⟩
  local_paint_rect := ⟨0, 0, 0, 0⟩
  baseline_offset := 0
  needs_paint := false
  request_paint := false
  needs_accessibility := false
  request_accessibility := false
  needs_layout := false
  request_layout := false
  needs_compose := false
  request_compose := false
  needs_anim := false
  request_anim := false
  needs_update_disabled := false
  needs_update_stashed := false
  children_changed := false
  update_focus_chain := false
  translation_changed := false
  is_expecting_place_child_call := false
  is_explicitly_disabled := false
  is_explicitly_stashed := false
  is_hovered := false
  has_focus := false

/-- A test `GlobalState` with nothing staged or captured. -/
def baseGlobal : GlobalState where
  focused_widget := none
  next_focused_widget := none
  pointer_capture_target := none
  scenes := []
  scroll_request_targets := []
  needs_pointer_pass := false

/-- Three-level chain for the up-propagation witness (spec §8: "Construct a
3-level tree, set a leaf's paint flag"): root 1 over node 2 over leaf 3 whose
`needs_paint` was set during the pass. -/
def exTreeC1 : WTree :=
  .node (baseState 1)
    (.cons
      (.node (baseState 2)
        (.cons (.node { baseState 3 with needs_paint := true } .nil) .nil))
      .nil)

/-- Fixture for `remove_child`: parent 1 with registered child 2 which holds
a scene resource and is the current pointer-capture target. -/
def exCtxC2 : MutateCtx where
  global_state :=
    { baseGlobal with
      pointer_capture_target := some ⟨2⟩
      scenes := [(⟨2⟩, ())] }
  widget_state := baseState 1
  widget_state_children := [(⟨2⟩, baseState 2)]
  widget_children := [(⟨2⟩, ())]

/-- Event-context fixture: widget 10 handling a pointer-down-class event. -/
def exCtxA : EventCtx where
  global_state := baseGlobal
  widget_state := baseState 10
  target := ⟨10⟩
  allow_pointer_capture := true
  is_handled := false

/-- Event-context fixture: widget 11 handling the same event after widget 10
captured the pointer. -/
def exCtxB : EventCtx where
  global_state :=
    { baseGlobal with pointer_capture_target := some ⟨10⟩ }
  widget_state := baseState 11
  target := ⟨10⟩
  allow_pointer_capture := true
  is_handled := false

/-- Fixture for `resign_focus`: widget 1 is an ancestor of the committed
focus target 2, so its cached `has_focus` flag is set although it is not
itself the focused widget; a focus request for widget 2 is currently
staged. -/
def exCtxC6 : EventCtx where
  global_state :=
    { baseGlobal with
      focused_widget := some ⟨2⟩
      next_focused_widget := some ⟨2⟩ }
  widget_state := { baseState 1 with has_focus := true }
  target := ⟨1⟩
  allow_pointer_capture := false
  is_handled := false

/-- Layout-context fixture: parent 1 with child 2 whose layout has run
(`needs_layout` cleared, a placement call expected) and whose local paint
rect is one unit square. -/
def exCtxC7 : LayoutCtx where
  global_state := baseGlobal
  widget_state := baseState 1
  widget_state_children :=
    [(⟨2⟩,
      { baseState 2 with
        is_expecting_place_child_call := true
        local_paint_rect := ⟨0, 0, 1, 1⟩ })]

/-- The child state of `exCtxC7`. -/
def exChildC7 : WidgetState :=
  { baseState 2 with
    is_expecting_place_child_call := true
    local_paint_rect := ⟨0, 0, 1, 1⟩ }

/-- The event context left behind by `capture_pointer exCtxA`. -/
def exCtxA' : EventCtx :=
  { exCtxA with
    global_state :=
      { baseGlobal with pointer_capture_target := some ⟨10⟩ } }

/-- Event-context fixture for the focus witness: widget 11 handling the same
event cycle after widget 10 already requested focus. -/
def exCtxY : EventCtx where
  global_state := (request_focus exCtxA).global_state
  widget_state := baseState 11
  target := ⟨10⟩
  allow_pointer_capture := false
  is_handled := false

/-- Layout-context fixture whose child 3 has not had `run_layout` called
(`needs_layout` still set). -/
def exCtxC7b : LayoutCtx where
  global_state := baseGlobal
  widget_state := baseState 1
  widget_state_children := [(⟨3⟩, { baseState 3 with needs_layout := true })]

/-- Compose-context fixture: parent 1 with child 2 whose stored translation
is zero. -/
def exCtxC10 : ComposeCtx where
  global_state := baseGlobal
  widget_state := baseState 1
  widget_state_children := [(⟨2⟩, baseState 2)]

/-! ## Helper lemmas -/

/-- Erasing an identity from an arena scope makes its lookup fail. -/
theorem arenaGet_erase {α : Type} (a : List (WidgetId × α)) (i : WidgetId) :
    arenaGet (arenaErase a i) i = none := by
  induction a with
  | nil => rfl
  | cons e rest ih =>
    by_cases h : e.1 = i
    · simp [arenaErase, h, ih]
    · simp [arenaErase, arenaGet, h, ih]

/-- Writing back an entry that was present makes its lookup return the new
value. -/
theorem arenaGet_set_self {α : Type} (a : List (WidgetId × α)) (i : WidgetId)
    (v v₀ : α) (h : arenaGet a i = some v₀) :
    arenaGet (arenaSet a i v) i = some v := by
  induction a with
  | nil => simp [arenaGet] at h
  | cons e rest ih =>
    by_cases he : e.1 = i
    · simp [arenaSet, arenaGet, he]
    · simp [arenaSet, arenaGet, he] at h ⊢
      exact ih h

/-- Each `needs_X` flag is merged by `merge_up` as a monotonic OR. -/
theorem needsFlags_merge (f : WidgetState → Bool) (hf : f ∈ needsFlags)
    (p c : WidgetState) : f (merge_up p c) = (f p || f c) := by
  simp only [needsFlags, List.mem_cons, List.not_mem_nil, or_false] at hf
  rcases hf with rfl | rfl | rfl | rfl | rfl | rfl | rfl <;> rfl

/-- Folding scope-exit merges of a forest's root states accumulates exactly
the OR of those root flags. -/
theorem mergeRoots_flag (f : WidgetState → Bool) (hf : f ∈ needsFlags) :
    ∀ (cf : WForest) (s : WidgetState),
      f (mergeRoots cf s) = (f s || rootsFlag f cf)
  | .nil, s => by simp [mergeRoots, rootsFlag]
  | .cons t rest, s => by
    rw [mergeRoots, rootsFlag, mergeRoots_flag f hf rest,
      rawWrapperMutDrop, needsFlags_merge f hf, Bool.or_assoc]

mutual

/-- After closing all scopes, a root's flag says whether any node of the
original tree had the flag. -/
theorem closeTree_rootFlag (f : WidgetState → Bool) (hf : f ∈ needsFlags) :
    ∀ t : WTree, f (rootState (closeTree t)) = anyTreeFlag f t
  | .node s cs => by
    rw [closeTree, rootState, mergeRoots_flag f hf,
      closeForest_rootsFlag f hf cs, anyTreeFlag]

/-- Forest version of `closeTree_rootFlag`. -/
theorem closeForest_rootsFlag (f : WidgetState → Bool) (hf : f ∈ needsFlags) :
    ∀ cf : WForest, rootsFlag f (closeForest cf) = anyForestFlag f cf
  | .nil => by rw [closeForest, rootsFlag, anyForestFlag]
  | .cons t rest => by
    rw [closeForest, rootsFlag, anyForestFlag,
      closeTree_rootFlag f hf t, closeForest_rootsFlag f hf rest]

end

mutual

/-- Closing the scopes does not change whether any node has the flag. -/
theorem closeTree_anyFlag (f : WidgetState → Bool) (hf : f ∈ needsFlags) :
    ∀ t : WTree, anyTreeFlag f (closeTree t) = anyTreeFlag f t
  | .node s cs => by
    rw [closeTree, anyTreeFlag, mergeRoots_flag f hf,
      closeForest_rootsFlag f hf cs, closeForest_anyFlag f hf cs,
      anyTreeFlag]
    cases f s <;> cases anyForestFlag f cs <;> rfl

/-- Forest version of `closeTree_anyFlag`. -/
theorem closeForest_anyFlag (f : WidgetState → Bool) (hf : f ∈ needsFlags) :
    ∀ cf : WForest, anyForestFlag f (closeForest cf) = anyForestFlag f cf
  | .nil => by rw [closeForest]
  | .cons t rest => by
    rw [closeForest, anyForestFlag, closeTree_anyFlag f hf t,
      closeForest_anyFlag f hf rest, anyForestFlag]

end

mutual

/-- Closing all scopes establishes the dirty-flag invariant everywhere. -/
theorem closeTree_inv (f : WidgetState → Bool) (hf : f ∈ needsFlags) :
    ∀ t : WTree, invTree f (closeTree t) = true
  | .node s cs => by
    rw [closeTree, invTree, mergeRoots_flag f hf,
      closeForest_rootsFlag f hf cs, closeForest_anyFlag f hf cs,
      closeForest_inv f hf cs]
    cases f s <;> cases anyForestFlag f cs <;> rfl

/-- Forest version of `closeTree_inv`. -/
theorem closeForest_inv (f : WidgetState → Bool) (hf : f ∈ needsFlags) :
    ∀ cf : WForest, invForest f (closeForest cf) = true
  | .nil => by rw [closeForest, invForest]
  | .cons t rest => by
    rw [closeForest, invForest, closeTree_inv f hf t,
      closeForest_inv f hf rest]
    rfl

end

/-! ## Claim theorems -/

/-- C1: Dirty-flag up-propagation.  When every mutable child scope of a pass
has ended — each exit merging the child's accumulated flags into the parent
via `rawWrapperMutDrop`, the merge performed by `RawWrapperMut::drop` and by
the drop of a `WidgetMut` with a `parent_widget_state` — the tree satisfies,
for every `needs_X` dirty flag and at every node N, that if any descendant of
N has the flag set then N has it set. -/
theorem dirty_flag_up_propagation (f : WidgetState → Bool)
    (hf : f ∈ needsFlags) (t : WTree) : invTree f (closeTree t) = true :=
  closeTree_inv f hf t

/-- Witness for `dirty_flag_up_propagation`: the `needs_paint` projection is
a `needs_X` flag, and the invariant holds for the closed three-level chain
whose leaf had `needs_paint` set during the pass. -/
theorem dirty_flag_up_propagation_witness :
    ((fun s => s.needs_paint) ∈ needsFlags) ∧
      invTree (fun s => s.needs_paint) (closeTree exTreeC1) = true :=
  ⟨by simp [needsFlags],
   dirty_flag_up_propagation (fun s => s.needs_paint) (by simp [needsFlags])
     exTreeC1⟩

/-- C3: each request-flag setter sets exactly its documented pair of flags
(`request_render` the paint pair and the accessibility pair) and leaves every
other dirty/request flag of the widget state unchanged. -/
theorem request_setters_exact (s : WidgetState) :
    ((request_paint_only s).needs_paint = true ∧
     (request_paint_only s).request_paint = true ∧
     (request_paint_only s).needs_accessibility = s.needs_accessibility ∧
     (request_paint_only s).request_accessibility = s.request_accessibility ∧
     (request_paint_only s).needs_layout = s.needs_layout ∧
     (request_paint_only s).request_layout = s.request_layout ∧
     (request_paint_only s).needs_compose = s.needs_compose ∧
     (request_paint_only s).request_compose = s.request_compose ∧
     (request_paint_only s).needs_anim = s.needs_anim ∧
     (request_paint_only s).request_anim = s.request_anim ∧
     (request_paint_only s).needs_update_disabled = s.needs_update_disabled ∧
     (request_paint_only s).needs_update_stashed = s.needs_update_stashed ∧
     (request_paint_only s).children_changed = s.children_changed ∧
     (request_paint_only s).update_focus_chain = s.update_focus_chain ∧
     (request_paint_only s).translation_changed = s.translation_changed ∧
     (request_paint_only s).is_expecting_place_child_call =
       s.is_expecting_place_child_call) ∧
    ((request_accessibility_update s).needs_accessibility = true ∧
     (request_accessibility_update s).request_accessibility = true ∧
     (request_accessibility_update s).needs_paint = s.needs_paint ∧
     (request_accessibility_update s).request_paint = s.request_paint ∧
     (request_accessibility_update s).needs_layout = s.needs_layout ∧
     (request_accessibility_update s).request_layout = s.request_layout ∧
     (request_accessibility_update s).needs_compose = s.needs_compose ∧
     (request_accessibility_update s).request_compose = s.request_compose ∧
     (request_accessibility_update s).needs_anim = s.needs_anim ∧
     (request_accessibility_update s).request_anim = s.request_anim ∧
     (request_accessibility_update s).needs_update_disabled =
       s.needs_update_disabled ∧
     (request_accessibility_update s).needs_update_stashed =
       s.needs_update_stashed ∧
     (request_accessibility_update s).children_changed = s.children_changed ∧
     (request_accessibility_update s).update_focus_chain =
       s.update_focus_chain ∧
     (request_accessibility_update s).translation_changed =
       s.translation_changed ∧
     (request_accessibility_update s).is_expecting_place_child_call =
       s.is_expecting_place_child_call) ∧
    ((request_layout s).needs_layout = true ∧
     (request_layout s).request_layout = true ∧
     (request_layout s).needs_paint = s.needs_paint ∧
     (request_layout s).request_paint = s.request_paint ∧
     (request_layout s).needs_accessibility = s.needs_accessibility ∧
     (request_layout s).request_accessibility = s.request_accessibility ∧
     (request_layout s).needs_compose = s.needs_compose ∧
     (request_layout s).request_compose = s.request_compose ∧
     (request_layout s).needs_anim = s.needs_anim ∧
     (request_layout s).request_anim = s.request_anim ∧
     (request_layout s).needs_update_disabled = s.needs_update_disabled ∧
     (request_layout s).needs_update_stashed = s.needs_update_stashed ∧
     (request_layout s).children_changed = s.children_changed ∧
     (request_layout s).update_focus_chain = s.update_focus_chain ∧
     (request_layout s).translation_changed = s.translation_changed ∧
     (request_layout s).is_expecting_place_child_call =
       s.is_expecting_place_child_call) ∧
    ((request_compose s).needs_compose = true ∧
     (request_compose s).request_compose = true ∧
     (request_compose s).needs_paint = s.needs_paint ∧
     (request_compose s).request_paint = s.request_paint ∧
     (request_compose s).needs_accessibility = s.needs_accessibility ∧
     (request_compose s).request_accessibility = s.request_accessibility ∧
     (request_compose s).needs_layout = s.needs_layout ∧
     (request_compose s).request_layout = s.request_layout ∧
     (request_compose s).needs_anim = s.needs_anim ∧
     (request_compose s).request_anim = s.request_anim ∧
     (request_compose s).needs_update_disabled = s.needs_update_disabled ∧
     (request_compose s).needs_update_stashed = s.needs_update_stashed ∧
     (request_compose s).children_changed = s.children_changed ∧
     (request_compose s).update_focus_chain = s.update_focus_chain ∧
     (request_compose s).translation_changed = s.translation_changed ∧
     (request_compose s).is_expecting_place_child_call =
       s.is_expecting_place_child_call) ∧
    ((request_anim_frame s).needs_anim = true ∧
     (request_anim_frame s).request_anim = true ∧
     (request_anim_frame s).needs_paint = s.needs_paint ∧
     (request_anim_frame s).request_paint = s.request_paint ∧
     (request_anim_frame s).needs_accessibility = s.needs_accessibility ∧
     (request_anim_frame s).request_accessibility = s.request_accessibility ∧
     (request_anim_frame s).needs_layout = s.needs_layout ∧
     (request_anim_frame s).request_layout = s.request_layout ∧
     (request_anim_frame s).needs_compose = s.needs_compose ∧
     (request_anim_frame s).request_compose = s.request_compose ∧
     (request_anim_frame s).needs_update_disabled = s.needs_update_disabled ∧
     (request_anim_frame s).needs_update_stashed = s.needs_update_stashed ∧
     (request_anim_frame s).children_changed = s.children_changed ∧
     (request_anim_frame s).update_focus_chain = s.update_focus_chain ∧
     (request_anim_frame s).translation_changed = s.translation_changed ∧
     (request_anim_frame s).is_expecting_place_child_call =
       s.is_expecting_place_child_call) ∧
    ((request_render s).needs_paint = true ∧
     (request_render s).request_paint = true ∧
     (request_render s).needs_accessibility = true ∧
     (request_render s).request_accessibility = true ∧
     (request_render s).needs_layout = s.needs_layout ∧
     (request_render s).request_layout = s.request_layout ∧
     (request_render s).needs_compose = s.needs_compose ∧
     (request_render s).request_compose = s.request_compose ∧
     (request_render s).needs_anim = s.needs_anim ∧
     (request_render s).request_anim = s.request_anim ∧
     (request_render s).needs_update_disabled = s.needs_update_disabled ∧
     (request_render s).needs_update_stashed = s.needs_update_stashed ∧
     (request_render s).children_changed = s.children_changed ∧
     (request_render s).update_focus_chain = s.update_focus_chain ∧
     (request_render s).translation_changed = s.translation_changed ∧
     (request_render s).is_expecting_place_child_call =
       s.is_expecting_place_child_call) := by
  simp [request_paint_only, request_accessibility_update, request_layout,
    request_compose, request_anim_frame, request_render]

/-- C2 (amended): for every registered child C, `remove_child` erases C's
entry from both the widget-state arena and the widget-payload arena (so
subsequent lookups of C's identity fail), releases the render-backend scene
keyed to C's identity, and sets `children_changed` (with the focus-chain
recheck) plus a layout request on the parent — but it leaves the global
pointer-capture target untouched, even when that target is C. -/
theorem remove_child_spec (ctx : MutateCtx) (c : WidgetId) (vs : WidgetState)
    (vw : Widget) (hs : arenaGet ctx.widget_state_children c = some vs)
    (hw : arenaGet ctx.widget_children c = some vw) :
    ∃ r, remove_child ctx c = .ok r ∧
      arenaGet r.widget_state_children c = none ∧
      arenaGet r.widget_children c = none ∧
      arenaGet r.global_state.scenes c = none ∧
      r.widget_state.children_changed = true ∧
      r.widget_state.update_focus_chain = true ∧
      r.widget_state.request_layout = true ∧
      r.widget_state.needs_layout = true ∧
      r.global_state.pointer_capture_target =
        ctx.global_state.pointer_capture_target ∧
      r.global_state.focused_widget = ctx.global_state.focused_widget := by
  simp only [remove_child, arenaRemove, hs, hw]
  exact ⟨_, rfl, arenaGet_erase _ _, arenaGet_erase _ _, arenaGet_erase _ _,
    rfl, rfl, rfl, rfl, rfl, rfl⟩

/-- Counterexample to C2 as stated: child 2 is the current pointer-capture
target of `exCtxC2`; after `remove_child` succeeds, the pointer-capture
target is still child 2 — `remove_child` does not clear it. -/
theorem remove_child_keeps_capture_target :
    exCtxC2.global_state.pointer_capture_target = some ⟨2⟩ ∧
      (∃ r, remove_child exCtxC2 ⟨2⟩ = .ok r ∧
        r.global_state.pointer_capture_target = some ⟨2⟩) :=
  ⟨rfl, ⟨_, rfl, rfl⟩⟩

/-- Witness for `remove_child_spec` at the concrete fixture `exCtxC2`. -/
theorem remove_child_spec_witness :
    arenaGet exCtxC2.widget_state_children ⟨2⟩ = some (baseState 2) ∧
    arenaGet exCtxC2.widget_children ⟨2⟩ = some () ∧
    (∃ r, remove_child exCtxC2 ⟨2⟩ = .ok r ∧
      arenaGet r.widget_state_children ⟨2⟩ = none ∧
      arenaGet r.widget_children ⟨2⟩ = none ∧
      arenaGet r.global_state.scenes ⟨2⟩ = none ∧
      r.widget_state.children_changed = true ∧
      r.widget_state.update_focus_chain = true ∧
      r.widget_state.request_layout = true ∧
      r.widget_state.needs_layout = true ∧
      r.global_state.pointer_capture_target =
        exCtxC2.global_state.pointer_capture_target ∧
      r.global_state.focused_widget = exCtxC2.global_state.focused_widget) :=
  ⟨by decide, by decide,
   remove_child_spec exCtxC2 ⟨2⟩ (baseState 2) () (by decide) (by decide)⟩

/-- C4: pointer-capture precondition and exclusivity.  `capture_pointer`
outside a pointer-down-class event (`allow_pointer_capture = false`) is a
programmer-error assertion; under the precondition it makes the caller the
single global pointer-capture target, so that after widget A captures (in
this or an earlier event of the same global state thread) and widget B then
captures, the target is B, with nothing else in B's context changed — the
previous capturer is silently superseded. -/
theorem capture_pointer_spec :
    (∀ c : EventCtx, c.allow_pointer_capture = false →
        capture_pointer c = .panic .captureNotAllowed) ∧
    (∀ a a' b : EventCtx,
        a.allow_pointer_capture = true →
        capture_pointer a = .ok a' →
        b.allow_pointer_capture = true →
        b.global_state = a'.global_state →
        a'.global_state.pointer_capture_target = some a.widget_state.id ∧
        capture_pointer b =
          .ok { b with
                global_state :=
                  { b.global_state with
                    pointer_capture_target := some b.widget_state.id } }) := by
  constructor
  · intro c hc
    simp [capture_pointer, hc]
  · intro a a' b ha hcap hb hgl
    rw [capture_pointer, if_pos ha] at hcap
    constructor
    · injection hcap with h
      rw [← h]
    · rw [capture_pointer, if_pos hb]

/-- Witness for `capture_pointer_spec`: widget 10 captures during a
pointer-down event, then widget 11 captures in the follow-up context carrying
the resulting global state; the target ends at widget 11. -/
theorem capture_pointer_spec_witness :
    exCtxA.allow_pointer_capture = true ∧
    capture_pointer exCtxA = .ok exCtxA' ∧
    exCtxB.allow_pointer_capture = true ∧
    exCtxB.global_state = exCtxA'.global_state ∧
    (exCtxA'.global_state.pointer_capture_target =
        some exCtxA.widget_state.id ∧
      capture_pointer exCtxB =
        .ok { exCtxB with
              global_state :=
                { exCtxB.global_state with
                  pointer_capture_target :=
                    some exCtxB.widget_state.id } }) :=
  ⟨rfl, by decide, rfl, by decide,
   capture_pointer_spec.2 exCtxA exCtxA' exCtxB rfl (by decide) rfl
     (by decide)⟩

/-- C5: focus last-writer-wins.  `request_focus` stages the caller's id and
`set_focus` stages the given target into the global `next_focused_widget`;
when widget X and then widget Y of the same event cycle both call
`request_focus`, the staged target is Y's, and the end-of-cycle commit makes
Y the focused widget. -/
theorem focus_last_writer_wins :
    (∀ c : EventCtx,
        (request_focus c).global_state.next_focused_widget =
          some c.widget_state.id) ∧
    (∀ (c : EventCtx) (target : WidgetId),
        (set_focus c target).global_state.next_focused_widget = some target) ∧
    (∀ x y : EventCtx,
        y.global_state = (request_focus x).global_state →
        (request_focus y).global_state.next_focused_widget =
            some y.widget_state.id ∧
          (commitFocusCycle (request_focus y).global_state).focused_widget =
            some y.widget_state.id) :=
  ⟨fun _ => rfl, fun _ _ => rfl, fun _ _ _ => ⟨rfl, rfl⟩⟩

/-- Witness for `focus_last_writer_wins`: widget 10 then widget 11 request
focus in one cycle; the committed focus is widget 11. -/
theorem focus_last_writer_wins_witness :
    exCtxY.global_state = (request_focus exCtxA).global_state ∧
    ((request_focus exCtxY).global_state.next_focused_widget =
        some exCtxY.widget_state.id ∧
      (commitFocusCycle (request_focus exCtxY).global_state).focused_widget =
        some exCtxY.widget_state.id) :=
  ⟨rfl, focus_last_writer_wins.2.2 exCtxA exCtxY rfl⟩

/-- C6 (amended): `resign_focus` is legal exactly when the caller's cached
`has_focus` flag is set — the caller is the focused widget or one of its
ancestors.  In that case it clears the staged focus target
(`next_focused_widget := none`) while leaving the committed `focused_widget`
unchanged; otherwise it logs a warning (the returned boolean) and changes no
state. -/
theorem resign_focus_spec (c : EventCtx) :
    (c.widget_state.has_focus = true →
        resign_focus c =
          ({ c with
             global_state :=
               { c.global_state with next_focused_widget := none } },
           false)) ∧
    (c.widget_state.has_focus = false → resign_focus c = (c, true)) ∧
    (resign_focus c).1.global_state.focused_widget =
      c.global_state.focused_widget := by
  refine ⟨fun h => ?_, fun h => ?_, ?_⟩
  · simp [resign_focus, h]
  · simp [resign_focus, h]
  · by_cases h : c.widget_state.has_focus <;> simp [resign_focus, h]

/-- Counterexample to C6 as stated: in `exCtxC6` the caller (widget 1) does
not hold focus — the committed focus target is widget 2 — yet because its
subtree contains the focused widget (`has_focus` flag), `resign_focus`
issues no warning and does change state: it clears the staged focus request
that was present. -/
theorem resign_focus_without_holding_focus :
    is_focused exCtxC6 = false ∧
    exCtxC6.global_state.next_focused_widget = some ⟨2⟩ ∧
    resign_focus exCtxC6 =
      ({ exCtxC6 with
         global_state :=
           { exCtxC6.global_state with next_focused_widget := none } },
       false) :=
  ⟨by decide, rfl, by decide⟩

/-- Witness for `resign_focus_spec` at `exCtxC6` (whose `has_focus` flag is
set). -/
theorem resign_focus_spec_witness :
    exCtxC6.widget_state.has_focus = true ∧
    resign_focus exCtxC6 =
      ({ exCtxC6 with
         global_state :=
           { exCtxC6.global_state with next_focused_widget := none } },
       false) :=
  ⟨rfl, (resign_focus_spec exCtxC6).1 rfl⟩

/-- A placed child's stored origin is the placement origin (whether or not
it moved). -/
theorem placedState_origin (cs : WidgetState) (o : Pt) :
    (placedState cs o).origin = o := by
  by_cases h : o = cs.origin <;> simp [placedState, h]

/-- Placement does not touch the compose translation. -/
theorem placedState_translation (cs : WidgetState) (o : Pt) :
    (placedState cs o).translation = cs.translation := by
  by_cases h : o = cs.origin <;> simp [placedState, h]

/-- Placing at the already-stored origin leaves `translation_changed` as it
was. -/
theorem placedState_translation_changed_of_eq (cs : WidgetState) (o : Pt)
    (h : o = cs.origin) :
    (placedState cs o).translation_changed = cs.translation_changed := by
  simp [placedState, h]

/-- Placing at a different origin records `translation_changed`. -/
theorem placedState_translation_changed_of_ne (cs : WidgetState) (o : Pt)
    (h : o ≠ cs.origin) :
    (placedState cs o).translation_changed = true := by
  simp [placedState, h]

/-- C7: `place_child` contract assertions.  On a registered child: if the
child's `needs_layout` flag is still set (`run_layout` has not been called
for it), `place_child` aborts with the layout-before-place contract
violation; with layout done but a NaN or infinite origin it aborts with the
invalid-origin programmer error; a valid call succeeds and the child's
`is_expecting_place_child_call` flag ends up cleared. -/
theorem place_child_contract (ctx : LayoutCtx) (child : WidgetId)
    (cs : WidgetState) (origin : FPoint)
    (hget : arenaGet ctx.widget_state_children child = some cs) :
    (cs.needs_layout = true →
        place_child ctx child origin = .panic .layoutNotDone) ∧
    (cs.needs_layout = false →
        (origin.x.isFinite = false ∨ origin.y.isFinite = false) →
        place_child ctx child origin = .panic .invalidOrigin) ∧
    (∀ ox oy : ℚ, cs.needs_layout = false →
        origin = ⟨Fl.fin ox, Fl.fin oy⟩ →
        ∃ r cs', place_child ctx child origin = .ok r ∧
          arenaGet r.widget_state_children child = some cs' ∧
          cs'.is_expecting_place_child_call = false) := by
  refine ⟨fun h => ?_, fun hnl hfin => ?_, fun ox oy hnl ho => ?_⟩
  · simp [place_child, hget, h]
  · rcases origin with ⟨x, y⟩
    cases x <;> cases y <;>
      simp_all [place_child, hget, Fl.isFinite]
  · subst ho
    simp only [place_child, hget, hnl, Bool.false_eq_true, if_false]
    exact ⟨_, _, rfl, arenaGet_set_self _ _ _ _ hget, rfl⟩

/-- Witness for `place_child_contract`: a valid placement of the laid-out
child 2 of `exCtxC7` succeeds and clears the flag; placing the
never-laid-out child 3 of `exCtxC7b` aborts with the contract violation. -/
theorem place_child_contract_witness :
    arenaGet exCtxC7.widget_state_children ⟨2⟩ = some exChildC7 ∧
    exChildC7.needs_layout = false ∧
    (∃ r cs', place_child exCtxC7 ⟨2⟩ ⟨Fl.fin 3, Fl.fin 4⟩ = .ok r ∧
      arenaGet r.widget_state_children ⟨2⟩ = some cs' ∧
      cs'.is_expecting_place_child_call = false) ∧
    arenaGet exCtxC7b.widget_state_children ⟨3⟩ =
      some { baseState 3 with needs_layout := true } ∧
    ({ baseState 3 with needs_layout := true } : WidgetState).needs_layout =
      true ∧
    place_child exCtxC7b ⟨3⟩ ⟨Fl.fin 0, Fl.fin 0⟩ = .panic .layoutNotDone :=
  ⟨by decide, rfl,
   (place_child_contract exCtxC7 ⟨2⟩ exChildC7 ⟨Fl.fin 3, Fl.fin 4⟩
       (by decide)).2.2 3 4 rfl rfl,
   by decide, rfl,
   (place_child_contract exCtxC7b ⟨3⟩ { baseState 3 with needs_layout := true }
       ⟨Fl.fin 0, Fl.fin 0⟩ (by decide)).1 rfl⟩

/-- C8: placement/translation round-trip.  A valid `place_child(origin)`
stores the origin, unions the placed child's paint rect into the parent's
local paint rect, leaves `translation_changed` untouched when the origin did
not move and sets it when it did; a following `set_child_translation(v)` in
the compose pass yields the effective window position `origin + v`. -/
theorem place_then_translate (ctx : LayoutCtx) (child : WidgetId)
    (cs : WidgetState) (ox oy vx vy : ℚ)
    (hget : arenaGet ctx.widget_state_children child = some cs)
    (hnl : cs.needs_layout = false) :
    ∃ r cs₁, place_child ctx child ⟨Fl.fin ox, Fl.fin oy⟩ = .ok r ∧
      arenaGet r.widget_state_children child = some cs₁ ∧
      cs₁.origin = ⟨ox, oy⟩ ∧
      r.widget_state.local_paint_rect =
        Rect.union ctx.widget_state.local_paint_rect (paintRect cs₁) ∧
      (cs.origin = ⟨ox, oy⟩ →
        cs₁.translation_changed = cs.translation_changed) ∧
      (cs.origin ≠ ⟨ox, oy⟩ → cs₁.translation_changed = true) ∧
      (∀ cctx : ComposeCtx,
        cctx.widget_state_children = r.widget_state_children →
        ∃ c' cs₂,
          set_child_translation cctx child ⟨Fl.fin vx, Fl.fin vy⟩ = .ok c' ∧
          arenaGet c'.widget_state_children child = some cs₂ ∧
          windowOffset cs₂ = ⟨ox + vx, oy + vy⟩) := by
  have hplace :
      place_child ctx child ⟨Fl.fin ox, Fl.fin oy⟩ =
        .ok { ctx with
              widget_state :=
                { ctx.widget_state with
                  local_paint_rect :=
                    Rect.union ctx.widget_state.local_paint_rect
                      (paintRect (placedState cs ⟨ox, oy⟩)) }
              widget_state_children :=
                arenaSet ctx.widget_state_children child
                  (placedState cs ⟨ox, oy⟩) } := by
    simp [place_child, hget, hnl, Rect.union]
  refine ⟨_, placedState cs ⟨ox, oy⟩, hplace,
    arenaGet_set_self _ _ _ _ hget, placedState_origin cs _, rfl,
    fun h => placedState_translation_changed_of_eq cs _ h.symm,
    fun h => placedState_translation_changed_of_ne cs _
      (fun he => h he.symm),
    fun cctx hc => ?_⟩
  have hget2 :
      arenaGet cctx.widget_state_children child =
        some (placedState cs ⟨ox, oy⟩) := by
    rw [hc]
    exact arenaGet_set_self _ _ _ _ hget
  by_cases ht :
      (⟨vx, vy⟩ : Pt) = (placedState cs ⟨ox, oy⟩).translation
  · refine ⟨cctx, placedState cs ⟨ox, oy⟩, ?_, hget2, ?_⟩
    · simp [set_child_translation, hget2, ht]
    · rw [windowOffset, placedState_origin, ← ht]
  · have hsct :
        set_child_translation cctx child ⟨Fl.fin vx, Fl.fin vy⟩ =
          .ok { cctx with
                widget_state_children :=
                  arenaSet cctx.widget_state_children child
                    { placedState cs ⟨ox, oy⟩ with
                      translation := ⟨vx, vy⟩
                      translation_changed := true } } := by
      simp [set_child_translation, hget2, ht]
    refine ⟨_, _, hsct, arenaGet_set_self _ _ _ _ hget2, ?_⟩
    rw [windowOffset]
    show (⟨(placedState cs ⟨ox, oy⟩).origin.x + vx,
          (placedState cs ⟨ox, oy⟩).origin.y + vy⟩ : Pt) =
      ⟨ox + vx, oy + vy⟩
    rw [placedState_origin]

/-- Witness for `place_then_translate`: place child 2 of `exCtxC7` at
(3, 4), then translate by (1, 2); the effective window offset is (4, 6). -/
theorem place_then_translate_witness :
    arenaGet exCtxC7.widget_state_children ⟨2⟩ = some exChildC7 ∧
    exChildC7.needs_layout = false ∧
    (∃ r cs₁, place_child exCtxC7 ⟨2⟩ ⟨Fl.fin 3, Fl.fin 4⟩ = .ok r ∧
      arenaGet r.widget_state_children ⟨2⟩ = some cs₁ ∧
      cs₁.origin = ⟨3, 4⟩ ∧
      r.widget_state.local_paint_rect =
        Rect.union exCtxC7.widget_state.local_paint_rect (paintRect cs₁) ∧
      (exChildC7.origin = ⟨3, 4⟩ →
        cs₁.translation_changed = exChildC7.translation_changed) ∧
      (exChildC7.origin ≠ ⟨3, 4⟩ → cs₁.translation_changed = true) ∧
      (∀ cctx : ComposeCtx,
        cctx.widget_state_children = r.widget_state_children →
        ∃ c' cs₂,
          set_child_translation cctx ⟨2⟩ ⟨Fl.fin 1, Fl.fin 2⟩ = .ok c' ∧
          arenaGet c'.widget_state_children ⟨2⟩ = some cs₂ ∧
          windowOffset cs₂ = ⟨3 + 1, 4 + 2⟩)) :=
  ⟨by decide, rfl,
   place_then_translate exCtxC7 ⟨2⟩ exChildC7 3 4 1 2 (by decide) rfl⟩

/-- C9: `set_stashed` is a no-op when the child's explicit stash flag
already has the requested value (in particular `needs_update_stashed` is not
set); when the value differs it stores the new flag and sets
`needs_update_stashed`. -/
theorem set_stashed_spec (ctx : MutateCtx) (child : WidgetId)
    (cs : WidgetState) (b : Bool)
    (hget : arenaGet ctx.widget_state_children child = some cs) :
    (cs.is_explicitly_stashed = b → set_stashed ctx child b = .ok ctx) ∧
    (cs.is_explicitly_stashed ≠ b →
        set_stashed ctx child b =
          .ok { ctx with
                widget_state_children :=
                  arenaSet ctx.widget_state_children child
                    { cs with
                      needs_update_stashed := true
                      is_explicitly_stashed := b } }) := by
  constructor <;> intro h <;> simp [set_stashed, hget, h]

/-- Witness for `set_stashed_spec`: stashing child 2 of `exCtxC2` with its
current value `false` changes nothing; stashing with `true` stores the flag
and marks `needs_update_stashed`. -/
theorem set_stashed_spec_witness :
    arenaGet exCtxC2.widget_state_children ⟨2⟩ = some (baseState 2) ∧
    (baseState 2).is_explicitly_stashed = false ∧
    set_stashed exCtxC2 ⟨2⟩ false = .ok exCtxC2 ∧
    (baseState 2).is_explicitly_stashed ≠ true ∧
    set_stashed exCtxC2 ⟨2⟩ true =
      .ok { exCtxC2 with
            widget_state_children :=
              arenaSet exCtxC2.widget_state_children ⟨2⟩
                { baseState 2 with
                  needs_update_stashed := true
                  is_explicitly_stashed := true } } :=
  ⟨by decide, rfl,
   (set_stashed_spec exCtxC2 ⟨2⟩ (baseState 2) false (by decide)).1 rfl,
   by decide,
   (set_stashed_spec exCtxC2 ⟨2⟩ (baseState 2) true (by decide)).2
     (by decide)⟩

/-- C10: `set_child_translation` aborts with a programmer-error assertion on
a NaN or infinite translation; a finite translation equal to the stored one
leaves the context entirely unchanged, and a different finite translation
stores the value and sets the child's `translation_changed` flag. -/
theorem set_child_translation_spec (ctx : ComposeCtx) (child : WidgetId)
    (cs : WidgetState) (t : FPoint)
    (hget : arenaGet ctx.widget_state_children child = some cs) :
    ((t.x.isFinite = false ∨ t.y.isFinite = false) →
        set_child_translation ctx child t = .panic .invalidTranslation) ∧
    (∀ tx ty : ℚ, t = ⟨Fl.fin tx, Fl.fin ty⟩ →
        (((⟨tx, ty⟩ : Pt) = cs.translation →
            set_child_translation ctx child t = .ok ctx) ∧
         ((⟨tx, ty⟩ : Pt) ≠ cs.translation →
            set_child_translation ctx child t =
              .ok { ctx with
                    widget_state_children :=
                      arenaSet ctx.widget_state_children child
                        { cs with
                          translation := ⟨tx, ty⟩
                          translation_changed := true } }))) := by
  constructor
  · intro h
    rcases t with ⟨x, y⟩
    cases x <;> cases y <;>
      simp_all [set_child_translation, Fl.isFinite]
  · intro tx ty ht
    subst ht
    constructor <;> intro h <;> simp [set_child_translation, hget, h]

/-- Witness for `set_child_translation_spec` on child 2 of `exCtxC10`
(stored translation (0, 0)): a NaN translation aborts, re-setting (0, 0)
changes nothing, setting (5, 0) stores it and marks the flag. -/
theorem set_child_translation_spec_witness :
    arenaGet exCtxC10.widget_state_children ⟨2⟩ = some (baseState 2) ∧
    (Fl.nan.isFinite = false ∨ (Fl.fin 0).isFinite = false) ∧
    set_child_translation exCtxC10 ⟨2⟩ ⟨Fl.nan, Fl.fin 0⟩ =
      .panic .invalidTranslation ∧
    ((⟨0, 0⟩ : Pt) = (baseState 2).translation) ∧
    set_child_translation exCtxC10 ⟨2⟩ ⟨Fl.fin 0, Fl.fin 0⟩ =
      .ok exCtxC10 ∧
    ((⟨5, 0⟩ : Pt) ≠ (baseState 2).translation) ∧
    set_child_translation exCtxC10 ⟨2⟩ ⟨Fl.fin 5, Fl.fin 0⟩ =
      .ok { exCtxC10 with
            widget_state_children :=
              arenaSet exCtxC10.widget_state_children ⟨2⟩
                { baseState 2 with
                  translation := ⟨5, 0⟩
                  translation_changed := true } } :=
  ⟨by decide, Or.inl rfl,
   (set_child_translation_spec exCtxC10 ⟨2⟩ (baseState 2) ⟨Fl.nan, Fl.fin 0⟩
       (by decide)).1 (Or.inl rfl),
   by decide,
   ((set_child_translation_spec exCtxC10 ⟨2⟩ (baseState 2)
       ⟨Fl.fin 0, Fl.fin 0⟩ (by decide)).2 0 0 rfl).1 (by decide),
   by decide,
   ((set_child_translation_spec exCtxC10 ⟨2⟩ (baseState 2)
       ⟨Fl.fin 5, Fl.fin 0⟩ (by decide)).2 5 0 rfl).2 (by decide)⟩

end Masonry
